import Mathlib

/-!
Verification of the todo-manager core logic: the client-side filter/sort/derive
pipeline (`filteredTodos`, src/unnamed/part_000 lines 712-770), derived status
(`getTodoStatus`, src/components/todo/TodoCard.tsx lines 28-36), AI extraction
post-processing (`postprocessResult`, src/unnamed/part_001 lines 87-137), and the
analyze endpoint's local computations (src/app/api/analyze-todos/route.ts).

Modelling conventions: timestamps (millisecond instants held in the `due_date`,
`created_date`, `updated_at` ISO strings) are embedded as `Int`; the ambient
current instant is an explicit `now : Int` parameter; calendar-date strings in
the extraction route stay `String` with an explicit parse function.
-/

/-- Type `TodoPriority` from src/types/todo.ts. -/
inductive Priority
  | high
  | medium
  | low
deriving DecidableEq, Repr

/-- The `Todo` record from src/types/todo.ts. `due_date`, `created_date` and
`updated_at` are the parsed instants of the stored ISO strings. -/
structure Todo where
  id : Nat
  title : String
  description : Option String
  created_date : Int
  due_date : Option Int
  priority : Option Priority
  category : Option (List String)
  completed : Bool
  updated_at : Int
deriving DecidableEq, Repr

/-- The status filter values of part_000 (`"all" | "완료" | "진행 중" | "지연"`). -/
inductive FilterStatus
  | all
  | done
  | inProgress
  | overdue
deriving DecidableEq, Repr

/-- The sort keys of part_000 (`priority | due_date | created_date | title`). -/
inductive SortOption
  | priority
  | due_date
  | created_date
  | title
deriving DecidableEq, Repr

/-- Does the char list start with the second list? Models the prefix step of
the JavaScript `String.prototype.includes` test. -/
def charsStartWith : List Char → List Char → Bool
  | _, [] => true
  | [], _ :: _ => false
  | c :: cs, d :: ds => c == d && charsStartWith cs ds

/-- Contiguous-substring test on char lists. -/
def charsContain : List Char → List Char → Bool
  | _, [] => true
  | [], _ :: _ => false
  | c :: cs, d :: ds => charsStartWith (c :: cs) (d :: ds) || charsContain cs (d :: ds)

/-- JavaScript `s.includes(sub)`. -/
def strIncludes (s sub : String) : Bool :=
  charsContain s.data sub.data

/-- Search predicate of part_000 lines 716-723: case-insensitive substring match
on the title or the (optional) description. -/
def matchesSearch (searchQuery : String) (t : Todo) : Bool :=
  strIncludes t.title.toLower searchQuery.toLower ||
    (match t.description with
     | some desc => strIncludes desc.toLower searchQuery.toLower
     | none => false)

/-- Status predicate of part_000 lines 726-737. The `all` branch models the
`return true` default of the source predicate. -/
def statusMatches (now : Int) (fs : FilterStatus) (t : Todo) : Bool :=
  match fs with
  | FilterStatus.all => true
  | FilterStatus.done => t.completed
  | FilterStatus.inProgress =>
      !t.completed &&
        (match t.due_date with
         | none => true
         | some d => decide (now ≤ d))
  | FilterStatus.overdue =>
      !t.completed &&
        (match t.due_date with
         | none => false
         | some d => decide (d < now))

/-- Priority-filter predicate of part_000 line 741 (`todo.priority === filterPriority`;
`none` models the inactive `"all"` selection). -/
def priorityPass (fp : Option Priority) (t : Todo) : Bool :=
  match fp with
  | none => true
  | some p => t.priority == some p

/-- Lookup `priorityOrder[a.priority || "low"]` of part_000 lines 747-749. -/
def priorityValue (p : Option Priority) : Int :=
  match p with
  | some Priority.high => 3
  | some Priority.medium => 2
  | some Priority.low => 1
  | none => 1

/-- The sort comparator of part_000 lines 745-767. The title branch models
`localeCompare(.., "ko")` by the total order on strings. -/
def sortCmp (so : SortOption) (a b : Todo) : Int :=
  match so with
  | SortOption.priority => priorityValue b.priority - priorityValue a.priority
  | SortOption.due_date =>
      match a.due_date, b.due_date with
      | none, none => 0
      | none, some _ => 1
      | some _, none => -1
      | some x, some y => x - y
  | SortOption.created_date => b.created_date - a.created_date
  | SortOption.title =>
      if a.title < b.title then -1 else if b.title < a.title then 1 else 0

/-- The ordering relation induced by a JavaScript comparator: `a` may come
before `b` when the comparator is non-positive. -/
def jsLe (cmp : Todo → Todo → Int) (a b : Todo) : Prop :=
  cmp a b ≤ 0

instance (cmp : Todo → Todo → Int) : DecidableRel (jsLe cmp) :=
  fun a b => inferInstanceAs (Decidable (cmp a b ≤ 0))

/-- Model of `Array.prototype.sort` with a comparator: a stable sort placing
`a` before `b` whenever `cmp a b ≤ 0`. -/
def jsSortBy (cmp : Todo → Todo → Int) (l : List Todo) : List Todo :=
  l.insertionSort (jsLe cmp)

/-- The derive pipeline `filteredTodos` of part_000 lines 712-770: copy, search
filter, status filter, priority filter, sort. -/
def filteredTodos (now : Int) (searchQuery : String) (filterStatus : FilterStatus)
    (filterPriority : Option Priority) (sortOption : SortOption)
    (todos : List Todo) : List Todo :=
  let r1 := if searchQuery == "" then todos else todos.filter (matchesSearch searchQuery)
  let r2 := if filterStatus == FilterStatus.all then r1
            else r1.filter (statusMatches now filterStatus)
  let r3 := match filterPriority with
            | none => r2
            | some p => r2.filter (fun t => t.priority == some p)
  jsSortBy (sortCmp sortOption) r3

/-- The conjunction of the pipeline's active predicates: search (vacuous for the
empty query), status, priority. -/
def derivePred (now : Int) (searchQuery : String) (filterStatus : FilterStatus)
    (filterPriority : Option Priority) (t : Todo) : Bool :=
  ((searchQuery == "") || matchesSearch searchQuery t) &&
    statusMatches now filterStatus t && priorityPass filterPriority t

/-- Type `TodoStatus` from src/types/todo.ts ("완료" = done, "지연" = overdue,
"진행 중" = in progress). -/
inductive TodoStatus
  | done
  | overdue
  | inProgress
deriving DecidableEq, Repr

/-- Function `getTodoStatus` from src/components/todo/TodoCard.tsx lines 28-36. -/
def getTodoStatus (now : Int) (t : Todo) : TodoStatus :=
  if t.completed then TodoStatus.done
  else
    match t.due_date with
    | some d => if d < now then TodoStatus.overdue else TodoStatus.inProgress
    | none => TodoStatus.inProgress

/-- Minimum title length of part_001 line 9. -/
def MIN_TITLE_LENGTH : Nat := 1

/-- Maximum title length of part_001 line 10. -/
def MAX_TITLE_LENGTH : Nat := 100

/-- The structured extraction output (`TodoResponseData`, part_001 lines 23-30).
`priority` is kept as a raw string so that malformed model output is
representable; absent string fields arrive as `""` (falsy in the source). -/
structure TodoResponseData where
  title : String
  description : Option String
  due_date : String
  due_time : String
  priority : String
  category : Option (List String)
deriving DecidableEq, Repr

/-- Gregorian leap-year rule, as used by the JavaScript `Date` parser. -/
def isLeapYear (y : Nat) : Bool :=
  (y % 4 == 0 && !(y % 100 == 0)) || y % 400 == 0

/-- Number of days of month `m` in year `y`. -/
def daysInMonth (y m : Nat) : Nat :=
  if m == 2 then (if isLeapYear y then 29 else 28)
  else if m == 4 || m == 6 || m == 9 || m == 11 then 30
  else 31

/-- Numeric value of a decimal digit char. -/
def digitVal (c : Char) : Nat :=
  c.toNat - 48

/-- Model of `new Date(s)` restricted to calendar-date strings: parses an ISO
`YYYY-MM-DD` string (the only shape the route produces and requests) into a day
index that is strictly monotone in the calendar date; every other string is
treated as unparsed (JavaScript's Invalid Date, whose comparisons are all
false). -/
def parseISODate (s : String) : Option Nat :=
  match s.data with
  | [y1, y2, y3, y4, s1, m1, m2, s2, d1, d2] =>
    if y1.isDigit && y2.isDigit && y3.isDigit && y4.isDigit && s1 == '-' &&
        m1.isDigit && m2.isDigit && s2 == '-' && d1.isDigit && d2.isDigit then
      let y := ((digitVal y1 * 10 + digitVal y2) * 10 + digitVal y3) * 10 + digitVal y4
      let m := digitVal m1 * 10 + digitVal m2
      let d := digitVal d1 * 10 + digitVal d2
      if 1 ≤ m ∧ m ≤ 12 ∧ 1 ≤ d ∧ d ≤ daysInMonth y m then
        some (y * 372 + (m - 1) * 31 + (d - 1))
      else none
    else none
  | _ => none

/-- The `/^\d{2}:\d{2}$/` test of part_001 line 117. -/
def matchesHHMM (s : String) : Bool :=
  match s.data with
  | [h1, h2, c, m1, m2] => h1.isDigit && h2.isDigit && c == ':' && m1.isDigit && m2.isDigit
  | _ => false

/-- Modelled from the spec: a `due_time` in `HH:MM` 24-hour format — the
two-digit pattern with hour below 24 and minute below 60. The source has no
such check; this is the spec-side notion the claim is compared against. -/
def isValid24hTime (s : String) : Bool :=
  match s.data with
  | [h1, h2, c, m1, m2] =>
      h1.isDigit && h2.isDigit && c == ':' && m1.isDigit && m2.isDigit &&
        decide (digitVal h1 * 10 + digitVal h2 < 24) &&
        decide (digitVal m1 * 10 + digitVal m2 < 60)
  | _ => false

/-- Title step of `postprocessResult` (part_001 lines 91-99). -/
def processTitle (title : String) : String :=
  if title ≠ "" then
    if title.length < MIN_TITLE_LENGTH then "할 일"
    else if title.length > MAX_TITLE_LENGTH then title.take (MAX_TITLE_LENGTH - 3) ++ "..."
    else title
  else "할 일"

/-- Due-date step of `postprocessResult` (part_001 lines 102-114): a parsed date
strictly before the reference date is replaced by the reference date; an
unparsed string compares false and is kept. -/
def processDueDate (due_date currentDate : String) : String :=
  if due_date ≠ "" then
    match parseISODate due_date, parseISODate currentDate with
    | some d, some t => if d < t then currentDate else due_date
    | _, _ => due_date
  else currentDate

/-- Due-time step of `postprocessResult` (part_001 lines 117-119). -/
def processDueTime (due_time : String) : String :=
  if due_time == "" || !matchesHHMM due_time then "09:00" else due_time

/-- Priority step of `postprocessResult` (part_001 lines 122-124). -/
def processPriority (priority : String) : String :=
  if priority == "" || !((["high", "medium", "low"] : List String).contains priority) then
    "medium"
  else priority

/-- Category step of `postprocessResult` (part_001 lines 127-129). -/
def processCategory (category : Option (List String)) : Option (List String) :=
  match category with
  | none => some ["기타"]
  | some l => if l.isEmpty then some ["기타"] else some l

/-- Description step of `postprocessResult` (part_001 lines 132-134). -/
def processDescription (description : Option String) : Option String :=
  match description with
  | none => none
  | some d => if d.length > 500 then some (d.take 497 ++ "...") else some d

/-- Function `postprocessResult` of part_001 lines 87-137: the per-field normalization
pass applied to the raw model output. -/
def postprocessResult (data : TodoResponseData) (currentDate : String) : TodoResponseData :=
  { title := processTitle data.title
    description := processDescription data.description
    due_date := processDueDate data.due_date currentDate
    due_time := processDueTime data.due_time
    priority := processPriority data.priority
    category := processCategory data.category }

/-- The ephemeral `Analysis Result` (analyze-todos route schema, lines 8-13). -/
structure AnalysisResult where
  summary : String
  urgentTasks : List String
  insights : List String
  recommendations : List String
deriving DecidableEq, Repr

/-- The request period of the analyze-todos route ("today" | "week"). -/
inductive Period
  | today
  | week
deriving DecidableEq, Repr

/-- The canned empty-period result of route.ts lines 98-110. -/
def emptyAnalysisResult (period : Period) : AnalysisResult :=
  { summary :=
      match period with
      | Period.today => "오늘 등록된 할 일이 없습니다."
      | Period.week => "이번 주 등록된 할 일이 없습니다."
    urgentTasks := []
    insights := ["할 일을 추가하여 시작해보세요!"]
    recommendations := ["새로운 할 일을 추가해보세요."] }

/-- The response-producing slice of the analyze-todos POST handler after the
period-matching records are fetched (route.ts lines 98-485): an empty list
short-circuits to the canned result; otherwise the hosted-model call — abstracted
here as the function argument `modelCall` — produces the result. -/
def analyzeTodosResponse (period : Period) (todos : List Todo)
    (modelCall : Period → List Todo → AnalysisResult) : AnalysisResult :=
  if todos.isEmpty then emptyAnalysisResult period else modelCall period todos

/-- JavaScript `now.getDay()` on a day index (days since 1970-01-01, a Thursday;
0 = Sunday .. 6 = Saturday). -/
def dayOfWeekOf (day : Int) : Int :=
  (day + 4) % 7

/-- Offset `mondayOffset` of route.ts line 69. -/
def mondayOffset (dayOfWeek : Int) : Int :=
  if dayOfWeek = 0 then -6 else 1 - dayOfWeek

/-- Value `weekStart` of route.ts lines 70-71, on day indices. -/
def weekStartOf (today : Int) : Int :=
  today + mondayOffset (dayOfWeekOf today)

/-- Value `weekEnd` of route.ts lines 72-73. -/
def weekEndOf (today : Int) : Int :=
  weekStartOf today + 6

/-- JavaScript `Math.ceil(a / b)` on exact integers (b positive). -/
def jsCeilDiv (a b : Int) : Int :=
  -((-a) / b)

/-- Value `daysUntilDue` of route.ts line 218: millisecond difference to the local
midnight `today`, divided by one day, rounded up. -/
def daysUntilDue (today due : Int) : Int :=
  jsCeilDiv (due - today) 86400000

/-- The urgent-task predicate of route.ts lines 212-222, with its early
returns. -/
def urgentPredCode (today : Int) (t : Todo) : Bool :=
  if t.completed then false
  else if t.priority == some Priority.high then true
  else
    match t.due_date with
    | some due => decide (daysUntilDue today due ≤ 1 ∧ 0 ≤ daysUntilDue today due)
    | none => false

/-- Value `urgentTasks` of route.ts lines 211-223: titles of the urgent records. -/
def urgentTasksOf (today : Int) (todos : List Todo) : List String :=
  (todos.filter (urgentPredCode today)).map Todo.title

/-- Due within 0-1 days inclusive of today (the claim-side clause of the urgent
set). -/
def dueWithinOneDay (today : Int) (t : Todo) : Bool :=
  match t.due_date with
  | some due => decide (0 ≤ daysUntilDue today due ∧ daysUntilDue today due ≤ 1)
  | none => false

/-- The urgent set as the spec words it: not completed and (priority high or
due within 0-1 days inclusive of today). -/
def urgentSpecPred (today : Int) (t : Todo) : Bool :=
  !t.completed && (t.priority == some Priority.high || dueWithinOneDay today t)

/-- Value `completedTodos` of route.ts line 274. -/
def completedTodosOf (todos : List Todo) : List Todo :=
  todos.filter (fun t => t.completed)

/-- Value `todosWithDueDate` of route.ts line 192. -/
def todosWithDueDate (todos : List Todo) : List Todo :=
  todos.filter (fun t => t.due_date.isSome)

/-- Count `t.category?.length || 0` of route.ts line 280. -/
def categoryCount (t : Todo) : Nat :=
  match t.category with
  | some l => l.length
  | none => 0

/-- Truthiness of `t.description` (route.ts line 282): present and non-empty. -/
def hasTruthyDescription (t : Todo) : Bool :=
  match t.description with
  | some s => !(s == "")
  | none => false

/-- JavaScript `x / y || 0` on the counts of route.ts line 282: the denominator-zero
quotient is NaN and `|| 0` collapses it (and a genuine zero quotient) to 0. -/
def jsDivOrZero (a b : ℚ) : ℚ :=
  if b = 0 then 0 else a / b

/-- Value `easyToCompletePatterns.avgPriority` of route.ts lines 276-278. -/
def easyAvgPriority (todos : List Todo) : ℚ :=
  let c := completedTodosOf todos
  if 0 < c.length then
    ((c.filter (fun t => t.priority == some Priority.high)).length : ℚ) / (c.length : ℚ)
  else 0

/-- Value `easyToCompletePatterns.avgCategoryCount` of route.ts lines 279-281. -/
def easyAvgCategoryCount (todos : List Todo) : ℚ :=
  let c := completedTodosOf todos
  if 0 < c.length then
    ((c.foldl (fun sum t => sum + categoryCount t) 0 : Nat) : ℚ) / (c.length : ℚ)
  else 0

/-- Value `easyToCompletePatterns.hasDescription` of route.ts line 282. -/
def easyHasDescription (todos : List Todo) : ℚ :=
  let c := completedTodosOf todos
  jsDivOrZero ((c.filter hasTruthyDescription).length : ℚ) (c.length : ℚ)

/-- Count `completedOnTime` of route.ts lines 193-198 (`updated_at` as the proxy for
the completion instant). -/
def completedOnTimeCount (todos : List Todo) : Nat :=
  ((todosWithDueDate todos).filter (fun t =>
    t.completed &&
      (match t.due_date with
       | some due => decide (t.updated_at ≤ due)
       | none => false))).length

/-- Value `onTimeRate` of route.ts lines 199-201. -/
def onTimeRate (todos : List Todo) : ℚ :=
  if 0 < (todosWithDueDate todos).length then
    ((completedOnTimeCount todos : ℚ) / ((todosWithDueDate todos).length : ℚ)) * 100
  else 0

/-- The message-content error classification of the extract-task endpoint
(part_001 lines 290-342), returning the HTTP status. -/
def classifyExtractErrorStatus (msg : String) : Nat :=
  if strIncludes msg "429" || strIncludes msg "quota" || strIncludes msg "rate limit" ||
      strIncludes msg "too many requests" then 429
  else if strIncludes msg "API key" || strIncludes msg "authentication" ||
      strIncludes msg "401" || strIncludes msg "unauthorized" then 401
  else if strIncludes msg "model" || strIncludes msg "not found" || strIncludes msg "404" then 404
  else if strIncludes msg "400" || strIncludes msg "bad request" || strIncludes msg "invalid" then 400
  else 500

/-- The identical message-content error classification of the analyze-todos
endpoint (route.ts lines 490-541). -/
def classifyAnalyzeErrorStatus (msg : String) : Nat :=
  if strIncludes msg "429" || strIncludes msg "quota" || strIncludes msg "rate limit" ||
      strIncludes msg "too many requests" then 429
  else if strIncludes msg "API key" || strIncludes msg "authentication" ||
      strIncludes msg "401" || strIncludes msg "unauthorized" then 401
  else if strIncludes msg "model" || strIncludes msg "not found" || strIncludes msg "404" then 404
  else if strIncludes msg "400" || strIncludes msg "bad request" || strIncludes msg "invalid" then 400
  else 500

theorem jsSortBy_perm (cmp : Todo → Todo → Int) (l : List Todo) :
    (jsSortBy cmp l).Perm l :=
  List.perm_insertionSort (jsLe cmp) l

theorem jsSortBy_sorted (cmp : Todo → Todo → Int)
    (htot : ∀ a b, cmp a b ≤ 0 ∨ cmp b a ≤ 0)
    (htr : ∀ a b c, cmp a b ≤ 0 → cmp b c ≤ 0 → cmp a c ≤ 0)
    (l : List Todo) : (jsSortBy cmp l).Sorted (jsLe cmp) := by
  haveI : IsTotal Todo (jsLe cmp) := ⟨htot⟩
  haveI : IsTrans Todo (jsLe cmp) := ⟨fun a b c hab hbc => htr a b c hab hbc⟩
  exact List.sorted_insertionSort (jsLe cmp) l

theorem jsSortBy_idem (cmp : Todo → Todo → Int)
    (htot : ∀ a b, cmp a b ≤ 0 ∨ cmp b a ≤ 0)
    (htr : ∀ a b c, cmp a b ≤ 0 → cmp b c ≤ 0 → cmp a c ≤ 0)
    (l : List Todo) : jsSortBy cmp (jsSortBy cmp l) = jsSortBy cmp l :=
  List.Sorted.insertionSort_eq (jsSortBy_sorted cmp htot htr l)

theorem sortCmpTitle_le_iff (a b : Todo) :
    sortCmp SortOption.title a b ≤ 0 ↔ a.title ≤ b.title := by
  unfold sortCmp
  split_ifs with h1 h2
  · norm_num [le_of_lt h1]
  · norm_num [not_le.mpr h2]
  · norm_num [not_lt.mp h2]

theorem sortCmp_total (so : SortOption) (a b : Todo) :
    sortCmp so a b ≤ 0 ∨ sortCmp so b a ≤ 0 := by
  cases so with
  | priority => simp only [sortCmp]; omega
  | due_date =>
      cases ha : a.due_date <;> cases hb : b.due_date <;>
        simp only [sortCmp, ha, hb] <;> omega
  | created_date => simp only [sortCmp]; omega
  | title =>
      rw [sortCmpTitle_le_iff, sortCmpTitle_le_iff]
      exact le_total a.title b.title

theorem sortCmp_trans (so : SortOption) (a b c : Todo)
    (hab : sortCmp so a b ≤ 0) (hbc : sortCmp so b c ≤ 0) : sortCmp so a c ≤ 0 := by
  cases so with
  | priority => simp only [sortCmp] at hab hbc ⊢; omega
  | due_date =>
      cases ha : a.due_date <;> cases hb : b.due_date <;> cases hc : c.due_date <;>
        simp only [sortCmp, ha, hb, hc] at hab hbc ⊢ <;> omega
  | created_date => simp only [sortCmp] at hab hbc ⊢; omega
  | title =>
      rw [sortCmpTitle_le_iff] at hab hbc ⊢
      exact le_trans hab hbc

theorem filteredTodos_eq_filter (now : Int) (q : String) (fs : FilterStatus)
    (fp : Option Priority) (so : SortOption) (L : List Todo) :
    filteredTodos now q fs fp so L =
      jsSortBy (sortCmp so) (L.filter (derivePred now q fs fp)) := by
  unfold filteredTodos jsSortBy
  refine congrArg (List.insertionSort (jsLe (sortCmp so))) ?_
  have hd : derivePred now q fs fp = fun t =>
      ((q == "") || matchesSearch q t) && statusMatches now fs t && priorityPass fp t := rfl
  rw [hd]
  cases hq : (q == "") <;> cases fs <;> cases fp <;>
    simp [statusMatches, priorityPass, hq, List.filter_filter,
      Bool.and_comm, Bool.and_left_comm, Bool.and_assoc] <;>
    exact List.filter_congr fun t ht => by simp [statusMatches]

theorem processTitle_ne_empty (s : String) : processTitle s ≠ "" := by
  unfold processTitle
  split_ifs with h1 h2 h3
  · decide
  · intro he
    have hl := congrArg String.length he
    rw [String.length_append] at hl
    have hd : ("..." : String).length = 3 := rfl
    have h0 : ("" : String).length = 0 := rfl
    omega
  · exact h1
  · decide

theorem processDueTime_pattern (s : String) : matchesHHMM (processDueTime s) = true := by
  unfold processDueTime
  split_ifs with h
  · decide
  · simp only [Bool.or_eq_true, Bool.not_eq_true', beq_iff_eq, not_or] at h
    cases hm : matchesHHMM s with
    | false => exact absurd hm h.2
    | true => rfl

theorem processPriority_mem (s : String) :
    processPriority s = "high" ∨ processPriority s = "medium" ∨ processPriority s = "low" := by
  unfold processPriority
  split_ifs with h
  · right; left; rfl
  · simp at h
    tauto

theorem processCategory_nonempty (c : Option (List String)) :
    ∃ l, processCategory c = some l ∧ l ≠ [] := by
  unfold processCategory
  cases c with
  | none => exact ⟨["기타"], rfl, by decide⟩
  | some l =>
    cases hl : l.isEmpty with
    | true => exact ⟨["기타"], by simp [hl], by decide⟩
    | false =>
        refine ⟨l, by simp [hl], ?_⟩
        intro he
        subst he
        simp at hl

theorem processDueDate_not_past (dd cd : String) (t : Nat)
    (h : parseISODate cd = some t) :
    ∀ d, parseISODate (processDueDate dd cd) = some d → t ≤ d := by
  intro d hd
  unfold processDueDate at hd
  split_ifs at hd with h1
  · rw [h] at hd
    cases hp : parseISODate dd with
    | none =>
        rw [hp] at hd
        simp at hd
        rw [hp] at hd
        simp at hd
    | some d0 =>
        rw [hp] at hd
        simp only [] at hd
        split_ifs at hd with h2
        · rw [h] at hd
          have ht := Option.some.inj hd
          omega
        · rw [hp] at hd
          have ht := Option.some.inj hd
          omega
  · rw [h] at hd
    have ht := Option.some.inj hd
    omega

theorem urgentPredCode_eq_spec (today : Int) (t : Todo) :
    urgentPredCode today t = urgentSpecPred today t := by
  unfold urgentPredCode urgentSpecPred dueWithinOneDay
  cases hcmp : t.completed with
  | true => simp [hcmp]
  | false =>
      cases hp : (t.priority == some Priority.high) with
      | true =>
          have hp' : t.priority = some Priority.high := by
            simpa using hp
          cases hd : t.due_date <;> simp [hcmp, hp, hp', hd]
      | false =>
          have hp' : ¬ t.priority = some Priority.high := by
            simpa using hp
          cases hd : t.due_date <;>
            simp [hcmp, hp, hp', hd, and_comm, Bool.and_comm]

/-- C1 (amended): for every raw model output and every reference date that
parses as a calendar date, the post-processed result has a non-empty title, a
due_time matching the two-digit `\d{2}:\d{2}` pattern the source actually tests
(not necessarily a valid 24-hour time), a priority among high/medium/low, a
due_date that — whenever it parses as a calendar date — is not strictly before
the reference date, and a non-empty category list. -/
theorem C1_postprocess_wellformed (data : TodoResponseData) (currentDate : String)
    (t : Nat) (h : parseISODate currentDate = some t) :
    (postprocessResult data currentDate).title ≠ "" ∧
    matchesHHMM (postprocessResult data currentDate).due_time = true ∧
    ((postprocessResult data currentDate).priority = "high" ∨
      (postprocessResult data currentDate).priority = "medium" ∨
      (postprocessResult data currentDate).priority = "low") ∧
    (∀ d, parseISODate (postprocessResult data currentDate).due_date = some d → t ≤ d) ∧
    (∃ cs, (postprocessResult data currentDate).category = some cs ∧ cs ≠ []) :=
  ⟨processTitle_ne_empty data.title, processDueTime_pattern data.due_time,
    processPriority_mem data.priority,
    processDueDate_not_past data.due_date currentDate t h,
    processCategory_nonempty data.category⟩

theorem C1_postprocess_wellformed_witness :
    (postprocessResult
        { title := "", description := none, due_date := "2020-01-01",
          due_time := "abc", priority := "", category := some [] }
        "2026-10-11").title ≠ "" ∧
    matchesHHMM (postprocessResult
        { title := "", description := none, due_date := "2020-01-01",
          due_time := "abc", priority := "", category := some [] }
        "2026-10-11").due_time = true ∧
    ((postprocessResult
        { title := "", description := none, due_date := "2020-01-01",
          due_time := "abc", priority := "", category := some [] }
        "2026-10-11").priority = "high" ∨
      (postprocessResult
        { title := "", description := none, due_date := "2020-01-01",
          due_time := "abc", priority := "", category := some [] }
        "2026-10-11").priority = "medium" ∨
      (postprocessResult
        { title := "", description := none, due_date := "2020-01-01",
          due_time := "abc", priority := "", category := some [] }
        "2026-10-11").priority = "low") ∧
    (∀ d, parseISODate (postprocessResult
        { title := "", description := none, due_date := "2020-01-01",
          due_time := "abc", priority := "", category := some [] }
        "2026-10-11").due_date = some d → 753961 ≤ d) ∧
    (∃ cs, (postprocessResult
        { title := "", description := none, due_date := "2020-01-01",
          due_time := "abc", priority := "", category := some [] }
        "2026-10-11").category = some cs ∧ cs ≠ []) :=
  C1_postprocess_wellformed
    { title := "", description := none, due_date := "2020-01-01",
      due_time := "abc", priority := "", category := some [] }
    "2026-10-11" 753961 (by decide)

/-- C1 counterexample: the source's due_time check is only the digit pattern
`\d{2}:\d{2}`, so the raw output `"99:99"` — not a valid 24-hour `HH:MM` time —
survives post-processing unchanged, falsifying the claim as stated. -/
theorem C1_counterexample :
    (postprocessResult
        { title := "엄마에게 전화", description := none, due_date := "2026-10-20",
          due_time := "99:99", priority := "high", category := some ["개인"] }
        "2026-10-11").due_time = "99:99" ∧
      isValid24hTime "99:99" = false := by
  exact ⟨rfl, by decide⟩

/-- C2: the derive pipeline returns exactly the records of L satisfying all
active predicates (search, status, priority) — the output is a permutation of
that filtered list, hence a subset of L with no records invented; the input
list itself is untouched (the pipeline is a pure function of it). -/
theorem C2_filteredTodos_exact (now : Int) (q : String) (fs : FilterStatus)
    (fp : Option Priority) (so : SortOption) (L : List Todo) :
    (filteredTodos now q fs fp so L).Perm (L.filter (derivePred now q fs fp)) ∧
      filteredTodos now q fs fp so L ⊆ L := by
  have hp : (filteredTodos now q fs fp so L).Perm (L.filter (derivePred now q fs fp)) := by
    rw [filteredTodos_eq_filter]
    exact jsSortBy_perm _ _
  refine ⟨hp, fun x hx => ?_⟩
  exact (List.mem_filter.mp (hp.mem_iff.mp hx)).1

theorem C2_filteredTodos_exact_witness :
    (filteredTodos 0 "" FilterStatus.all none SortOption.priority []).Perm
        (List.filter (derivePred 0 "" FilterStatus.all none) []) ∧
      filteredTodos 0 "" FilterStatus.all none SortOption.priority [] ⊆ [] :=
  C2_filteredTodos_exact 0 "" FilterStatus.all none SortOption.priority []

/-- C3: the derived status is total and the three cases are exhaustive and
mutually exclusive — done exactly for completed records, overdue exactly for
non-completed records with a past due date, in-progress exactly otherwise. -/
theorem C3_getTodoStatus_exhaustive (now : Int) (t : Todo) :
    (getTodoStatus now t = TodoStatus.done ∨ getTodoStatus now t = TodoStatus.overdue ∨
      getTodoStatus now t = TodoStatus.inProgress) ∧
    (getTodoStatus now t = TodoStatus.done ↔ t.completed = true) ∧
    (getTodoStatus now t = TodoStatus.overdue ↔
      (t.completed = false ∧ ∃ d, t.due_date = some d ∧ d < now)) ∧
    (getTodoStatus now t = TodoStatus.inProgress ↔
      (t.completed = false ∧ ∀ d, t.due_date = some d → now ≤ d)) := by
  unfold getTodoStatus
  cases hc : t.completed <;> cases hd : t.due_date <;>
    simp [hc, hd] <;> split_ifs with h <;> simp [h] <;> omega

theorem C3_getTodoStatus_exhaustive_witness :
    (getTodoStatus 5
          { id := 0, title := "책 읽기", description := none, created_date := 0,
            due_date := some 3, priority := none, category := none,
            completed := false, updated_at := 0 } = TodoStatus.done ∨
        getTodoStatus 5
          { id := 0, title := "책 읽기", description := none, created_date := 0,
            due_date := some 3, priority := none, category := none,
            completed := false, updated_at := 0 } = TodoStatus.overdue ∨
        getTodoStatus 5
          { id := 0, title := "책 읽기", description := none, created_date := 0,
            due_date := some 3, priority := none, category := none,
            completed := false, updated_at := 0 } = TodoStatus.inProgress) ∧
      (getTodoStatus 5
          { id := 0, title := "책 읽기", description := none, created_date := 0,
            due_date := some 3, priority := none, category := none,
            completed := false, updated_at := 0 } = TodoStatus.done ↔
        Todo.completed
          { id := 0, title := "책 읽기", description := none, created_date := 0,
            due_date := some 3, priority := none, category := none,
            completed := false, updated_at := 0 } = true) ∧
      (getTodoStatus 5
          { id := 0, title := "책 읽기", description := none, created_date := 0,
            due_date := some 3, priority := none, category := none,
            completed := false, updated_at := 0 } = TodoStatus.overdue ↔
        (Todo.completed
            { id := 0, title := "책 읽기", description := none, created_date := 0,
              due_date := some 3, priority := none, category := none,
              completed := false, updated_at := 0 } = false ∧
          ∃ d, Todo.due_date
              { id := 0, title := "책 읽기", description := none, created_date := 0,
                due_date := some 3, priority := none, category := none,
                completed := false, updated_at := 0 } = some d ∧ d < 5)) ∧
      (getTodoStatus 5
          { id := 0, title := "책 읽기", description := none, created_date := 0,
            due_date := some 3, priority := none, category := none,
            completed := false, updated_at := 0 } = TodoStatus.inProgress ↔
        (Todo.completed
            { id := 0, title := "책 읽기", description := none, created_date := 0,
              due_date := some 3, priority := none, category := none,
              completed := false, updated_at := 0 } = false ∧
          ∀ d, Todo.due_date
              { id := 0, title := "책 읽기", description := none, created_date := 0,
                due_date := some 3, priority := none, category := none,
                completed := false, updated_at := 0 } = some d → 5 ≤ d)) :=
  C3_getTodoStatus_exhaustive 5
    { id := 0, title := "책 읽기", description := none, created_date := 0,
      due_date := some 3, priority := none, category := none,
      completed := false, updated_at := 0 }

/-- C4: sorting by due date orders dated records ascending and places every
record without a due date after every record with one, for any input list
(hence for any counts of dated and undated records, including zero). -/
theorem C4_dueDateSort_undated_last (now : Int) (q : String) (fs : FilterStatus)
    (fp : Option Priority) (L : List Todo) :
    (filteredTodos now q fs fp SortOption.due_date L).Pairwise (fun a b =>
      (a.due_date = none → b.due_date = none) ∧
      ∀ x y, a.due_date = some x → b.due_date = some y → x ≤ y) := by
  rw [filteredTodos_eq_filter]
  have hs := jsSortBy_sorted (sortCmp SortOption.due_date)
    (fun a b => sortCmp_total SortOption.due_date a b)
    (fun a b c => sortCmp_trans SortOption.due_date a b c)
    (L.filter (derivePred now q fs fp))
  refine List.Pairwise.imp ?_ hs
  intro a b h
  unfold jsLe at h
  constructor
  · intro ha
    cases hb : b.due_date with
    | none => rfl
    | some x =>
        simp only [sortCmp, ha, hb] at h
        omega
  · intro x y hx hy
    simp only [sortCmp, hx, hy] at h
    omega

theorem C4_dueDateSort_undated_last_witness :
    (filteredTodos 0 "" FilterStatus.all none SortOption.due_date
        [{ id := 0, title := "기한 없음", description := none, created_date := 0,
           due_date := none, priority := none, category := none,
           completed := false, updated_at := 0 },
         { id := 1, title := "기한 있음", description := none, created_date := 0,
           due_date := some 7, priority := none, category := none,
           completed := false, updated_at := 0 }]).Pairwise (fun a b =>
      (a.due_date = none → b.due_date = none) ∧
      ∀ x y, a.due_date = some x → b.due_date = some y → x ≤ y) :=
  C4_dueDateSort_undated_last 0 "" FilterStatus.all none
    [{ id := 0, title := "기한 없음", description := none, created_date := 0,
       due_date := none, priority := none, category := none,
       completed := false, updated_at := 0 },
     { id := 1, title := "기한 있음", description := none, created_date := 0,
       due_date := some 7, priority := none, category := none,
       completed := false, updated_at := 0 }]

/-- C5: the derive pipeline is idempotent — applying it twice with the same
criteria (same reference instant, search string, status filter, priority
filter, sort key) equals applying it once. -/
theorem C5_filteredTodos_idempotent (now : Int) (q : String) (fs : FilterStatus)
    (fp : Option Priority) (so : SortOption) (L : List Todo) :
    filteredTodos now q fs fp so (filteredTodos now q fs fp so L) =
      filteredTodos now q fs fp so L := by
  rw [filteredTodos_eq_filter now q fs fp so (filteredTodos now q fs fp so L),
    filteredTodos_eq_filter now q fs fp so L]
  have hmem : ∀ x ∈ jsSortBy (sortCmp so) (L.filter (derivePred now q fs fp)),
      derivePred now q fs fp x = true := by
    intro x hx
    exact (List.mem_filter.mp ((jsSortBy_perm _ _).mem_iff.mp hx)).2
  rw [List.filter_eq_self.mpr hmem]
  exact jsSortBy_idem (sortCmp so)
    (fun a b => sortCmp_total so a b)
    (fun a b c => sortCmp_trans so a b c) _

theorem C5_filteredTodos_idempotent_witness :
    filteredTodos 0 "공부" FilterStatus.inProgress (some Priority.high) SortOption.title
        (filteredTodos 0 "공부" FilterStatus.inProgress (some Priority.high)
          SortOption.title []) =
      filteredTodos 0 "공부" FilterStatus.inProgress (some Priority.high)
        SortOption.title [] :=
  C5_filteredTodos_idempotent 0 "공부" FilterStatus.inProgress (some Priority.high)
    SortOption.title []

/-- C6: with zero period-matching records the analyzer's response does not
depend on the hosted-model call at all and equals the canned result: the
period-specific no-items summary, empty urgentTasks, and singleton insights
and recommendations each holding the generic encouragement to add a task. -/
theorem C6_empty_shortcircuit (period : Period)
    (f g : Period → List Todo → AnalysisResult) :
    analyzeTodosResponse period [] f = analyzeTodosResponse period [] g ∧
    analyzeTodosResponse period [] f = emptyAnalysisResult period ∧
    (analyzeTodosResponse period [] f).urgentTasks = [] ∧
    (analyzeTodosResponse period [] f).insights = ["할 일을 추가하여 시작해보세요!"] ∧
    (analyzeTodosResponse period [] f).recommendations = ["새로운 할 일을 추가해보세요."] ∧
    (analyzeTodosResponse Period.today [] f).summary = "오늘 등록된 할 일이 없습니다." ∧
    (analyzeTodosResponse Period.week [] f).summary = "이번 주 등록된 할 일이 없습니다." := by
  cases period <;> exact ⟨rfl, rfl, rfl, rfl, rfl, rfl, rfl⟩

theorem C6_empty_shortcircuit_witness :
    analyzeTodosResponse Period.today []
        (fun _ _ => { summary := "모델 호출", urgentTasks := ["x"], insights := [],
                      recommendations := [] }) =
      analyzeTodosResponse Period.today [] (fun _ _ => emptyAnalysisResult Period.week) ∧
    analyzeTodosResponse Period.today []
        (fun _ _ => { summary := "모델 호출", urgentTasks := ["x"], insights := [],
                      recommendations := [] }) = emptyAnalysisResult Period.today ∧
    (analyzeTodosResponse Period.today []
        (fun _ _ => { summary := "모델 호출", urgentTasks := ["x"], insights := [],
                      recommendations := [] })).urgentTasks = [] ∧
    (analyzeTodosResponse Period.today []
        (fun _ _ => { summary := "모델 호출", urgentTasks := ["x"], insights := [],
                      recommendations := [] })).insights = ["할 일을 추가하여 시작해보세요!"] ∧
    (analyzeTodosResponse Period.today []
        (fun _ _ => { summary := "모델 호출", urgentTasks := ["x"], insights := [],
                      recommendations := [] })).recommendations = ["새로운 할 일을 추가해보세요."] ∧
    (analyzeTodosResponse Period.today []
        (fun _ _ => { summary := "모델 호출", urgentTasks := ["x"], insights := [],
                      recommendations := [] })).summary = "오늘 등록된 할 일이 없습니다." ∧
    (analyzeTodosResponse Period.week []
        (fun _ _ => { summary := "모델 호출", urgentTasks := ["x"], insights := [],
                      recommendations := [] })).summary = "이번 주 등록된 할 일이 없습니다." :=
  C6_empty_shortcircuit Period.today
    (fun _ _ => { summary := "모델 호출", urgentTasks := ["x"], insights := [],
                  recommendations := [] })
    (fun _ _ => emptyAnalysisResult Period.week)

/-- C7: the computed weekly window always runs Monday through Sunday around the
reference day: the start is the Monday at or before the reference day, the end
is six days later (a Sunday), the reference day lies inside, and a Sunday
reference maps to the previous Monday, six days earlier. -/
theorem C7_week_window (n : Int) :
    dayOfWeekOf (weekStartOf n) = 1 ∧ weekStartOf n ≤ n ∧ n ≤ weekEndOf n ∧
      weekEndOf n = weekStartOf n + 6 ∧ dayOfWeekOf (weekEndOf n) = 0 ∧
      (dayOfWeekOf n = 0 → weekStartOf n = n - 6) := by
  unfold weekEndOf weekStartOf mondayOffset dayOfWeekOf
  split_ifs with h <;> omega

theorem C7_week_window_witness :
    dayOfWeekOf (weekStartOf 3) = 1 ∧ dayOfWeekOf 3 = 0 ∧ weekStartOf 3 = 3 - 6 :=
  ⟨(C7_week_window 3).1, by decide, (C7_week_window 3).2.2.2.2.2 (by decide)⟩

/-- C8: the locally computed urgent set is exactly the period records that are
not completed and either have priority high or are due within 0-1 days
inclusive of today; every non-completed record due today or tomorrow is
included, and no completed record ever satisfies the urgent predicate. -/
theorem C8_urgentTasks_exact (today : Int) (todos : List Todo) :
    urgentTasksOf today todos = (todos.filter (urgentSpecPred today)).map Todo.title ∧
    (∀ t ∈ todos, t.completed = false → dueWithinOneDay today t = true →
      t.title ∈ urgentTasksOf today todos) ∧
    (∀ t, t.completed = true → urgentPredCode today t = false) := by
  refine ⟨?_, ?_, ?_⟩
  · unfold urgentTasksOf
    rw [List.filter_congr fun t _ => urgentPredCode_eq_spec today t]
  · intro t ht hc hd
    unfold urgentTasksOf
    refine List.mem_map.mpr ⟨t, List.mem_filter.mpr ⟨ht, ?_⟩, rfl⟩
    rw [urgentPredCode_eq_spec]
    unfold urgentSpecPred
    rw [hc, hd]
    simp
  · intro t hc
    unfold urgentPredCode
    simp [hc]

theorem C8_urgentTasks_exact_witness :
    urgentTasksOf 0
        [{ id := 0, title := "우유 사기", description := none, created_date := 0,
           due_date := some 86400000, priority := none, category := none,
           completed := false, updated_at := 0 },
         { id := 1, title := "청소", description := none, created_date := 0,
           due_date := some 0, priority := some Priority.high, category := none,
           completed := true, updated_at := 0 }] = ["우유 사기"] :=
  (C8_urgentTasks_exact 0
      [{ id := 0, title := "우유 사기", description := none, created_date := 0,
         due_date := some 86400000, priority := none, category := none,
         completed := false, updated_at := 0 },
       { id := 1, title := "청소", description := none, created_date := 0,
         due_date := some 0, priority := some Priority.high, category := none,
         completed := true, updated_at := 0 }]).1.trans (by decide)

/-- C9: whenever the hosted-model call fails with an error message containing
the substring "rate limit", both AI endpoints classify it as 429, not as the
generic 500. -/
theorem C9_rate_limit_is_429 (msg : String)
    (h : strIncludes msg "rate limit" = true) :
    classifyExtractErrorStatus msg = 429 ∧ classifyAnalyzeErrorStatus msg = 429 := by
  unfold classifyExtractErrorStatus classifyAnalyzeErrorStatus
  rw [h]
  simp

theorem C9_rate_limit_is_429_witness :
    classifyExtractErrorStatus "Resource exhausted: rate limit exceeded" = 429 ∧
      classifyAnalyzeErrorStatus "Resource exhausted: rate limit exceeded" = 429 :=
  C9_rate_limit_is_429 "Resource exhausted: rate limit exceeded" (by decide)

/-- C10: the locally computed statistics are total: with zero completed records
the three easy-to-complete pattern values are 0 rather than a division by
zero, and with no dated records the on-time rate is 0. -/
theorem C10_degenerate_stats_zero (todos : List Todo) :
    (completedTodosOf todos = [] →
      easyAvgPriority todos = 0 ∧ easyAvgCategoryCount todos = 0 ∧
        easyHasDescription todos = 0) ∧
    (todosWithDueDate todos = [] → onTimeRate todos = 0) := by
  constructor
  · intro h
    refine ⟨?_, ?_, ?_⟩ <;>
      simp [easyAvgPriority, easyAvgCategoryCount, easyHasDescription, jsDivOrZero, h]
  · intro h
    simp [onTimeRate, h]

theorem C10_degenerate_stats_zero_witness :
    (easyAvgPriority
          [{ id := 0, title := "운동", description := none, created_date := 0,
             due_date := none, priority := none, category := none,
             completed := false, updated_at := 0 }] = 0 ∧
        easyAvgCategoryCount
          [{ id := 0, title := "운동", description := none, created_date := 0,
             due_date := none, priority := none, category := none,
             completed := false, updated_at := 0 }] = 0 ∧
        easyHasDescription
          [{ id := 0, title := "운동", description := none, created_date := 0,
             due_date := none, priority := none, category := none,
             completed := false, updated_at := 0 }] = 0) ∧
      onTimeRate
          [{ id := 0, title := "운동", description := none, created_date := 0,
             due_date := none, priority := none, category := none,
             completed := false, updated_at := 0 }] = 0 :=
  ⟨(C10_degenerate_stats_zero
        [{ id := 0, title := "운동", description := none, created_date := 0,
           due_date := none, priority := none, category := none,
           completed := false, updated_at := 0 }]).1 (by decide),
    (C10_degenerate_stats_zero
        [{ id := 0, title := "운동", description := none, created_date := 0,
           due_date := none, priority := none, category := none,
           completed := false, updated_at := 0 }]).2 (by decide)⟩
